import Mathlib

/-!
Shallow embedding of the BrushTrack application core (`src/App.tsx`).

The source is a single React component. Its `useState` hooks
(`appState`, `isAnalyzing`, `brushingTime`, `statusMessage`, `error`)
become fields of a `Session` record; the `setX(...)` calls of each
handler become a pure function `Session → Session`; the two
`setInterval` cadences (analysis loop at 3000 ms, brushing timer at
1000 ms) and the asynchronous settlement of `ai.models.generateContent`
become events of an explicit step relation on a configuration that also
carries the list of outstanding classification calls.

JavaScript numbers are modelled as `Rat` (for the confidence value and
the 0.4 gate, both exactly representable) and `Nat` (for the brushing
timer, which counts up from 0 by 1). A JSON response parsed by
`JSON.parse(response.text || '\x7b\x7d')` may miss any field, so the
parsed value is a record of `Option` fields (`RawDetection`); the
JavaScript coercions `undefined < 0.4 = false` and `undefined` being
falsy are modelled explicitly.
-/

namespace WakeTheFup

/-- `type AppState = 'IDLE' | 'APPLYING_TOOTHPASTE' | 'BRUSHING' | 'FINISHED' | 'ERROR'`
(App.tsx line 14). -/
inductive AppState where
  | IDLE
  | APPLYING_TOOTHPASTE
  | BRUSHING
  | FINISHED
  | ERROR
  deriving DecidableEq, Repr

open AppState

/-- `const BRUSHING_REQUIRED_TIME = 10` (App.tsx line 27). -/
def BRUSHING_REQUIRED_TIME : Nat := 10

/-- `const ANALYSIS_INTERVAL = 3000` (App.tsx line 26). -/
def ANALYSIS_INTERVAL : Nat := 3000

/-- The value produced by `JSON.parse(response.text || '\x7b\x7d')` at App.tsx
line 138, cast to `DetectionResult` without validation: every field may be
absent (`undefined`), so each is an `Option`. -/
structure RawDetection where
  isApplyingToothpaste : Option Bool
  isBrushInMouth : Option Bool
  isBrushing : Option Bool
  confidence : Option Rat
  reasoning : Option String
  deriving DecidableEq, Repr

/-- `interface DetectionResult` (App.tsx lines 16-22): the well-formed shape,
with all five fields present. -/
structure DetectionResult where
  isApplyingToothpaste : Bool
  isBrushInMouth : Bool
  isBrushing : Bool
  confidence : Rat
  reasoning : String
  deriving DecidableEq, Repr

/-- A well-formed response, viewed as the parsed value it produces. -/
def DetectionResult.toRaw (r : DetectionResult) : RawDetection :=
  { isApplyingToothpaste := some r.isApplyingToothpaste
    isBrushInMouth := some r.isBrushInMouth
    isBrushing := some r.isBrushing
    confidence := some r.confidence
    reasoning := some r.reasoning }

/-- JavaScript `x < c` where `x` may be `undefined`: `undefined < c`
evaluates to `false` (NaN comparison). -/
def jsLt (x : Option Rat) (c : Rat) : Bool :=
  match x with
  | some v => decide (v < c)
  | none => false

/-- JavaScript truthiness of a boolean field that may be `undefined`:
`undefined` is falsy. -/
def truthy (b : Option Bool) : Bool :=
  b.getD false

/-- The component state of `App` (App.tsx lines 32-37) plus the liveness of
the brushing `setInterval` handle (`brushingTimerRef`, line 45): whether a
1-second cadence is currently scheduled. -/
structure Session where
  appState : AppState
  isAnalyzing : Bool
  brushingTime : Nat
  statusMessage : String
  error : Option String
  brushingTimerActive : Bool
  deriving DecidableEq, Repr

/-- The initial component state (App.tsx lines 32-37): `IDLE`, not analyzing,
timer at 0, status `"Ready to start"`, no error, no brushing interval. -/
def initSession : Session :=
  { appState := IDLE
    isAnalyzing := false
    brushingTime := 0
    statusMessage := "Ready to start"
    error := none
    brushingTimerActive := false }

/-- `handleDetectionResult` (App.tsx lines 148-169). The confidence gate
`if (result.confidence < 0.4) return;` discards the result; otherwise the
functional updater `setAppState(prev => ...)` inspects the CURRENT state:
from `IDLE` a truthy `isApplyingToothpaste` advances to
`APPLYING_TOOTHPASTE`, from `APPLYING_TOOTHPASTE` a truthy `isBrushInMouth`
advances to `BRUSHING`, each setting its status message; every other case
returns `prev` unchanged (the `BRUSHING` branch at lines 162-165 is an
empty comment block). The gate threshold 0.4 is the rational `mkRat 2 5`. -/
def handleDetectionResult (result : RawDetection) (s : Session) : Session :=
  if jsLt result.confidence (mkRat 2 5) then s
  else if s.appState = IDLE ∧ truthy result.isApplyingToothpaste then
    { s with appState := APPLYING_TOOTHPASTE
             statusMessage := "Toothpaste detected! Now put the brush in your mouth." }
  else if s.appState = APPLYING_TOOTHPASTE ∧ truthy result.isBrushInMouth then
    { s with appState := BRUSHING
             statusMessage := "Brushing detected! Keep going for 10 seconds." }
  else s

/-- The timer `useEffect` body (App.tsx lines 172-193), which runs when
`appState` changes: in `BRUSHING` it installs the 1-second interval; in any
other state it clears the interval, and additionally resets `brushingTime`
to 0 unless the state is `FINISHED`. -/
def timerEffect (s : Session) : Session :=
  if s.appState = BRUSHING then
    { s with brushingTimerActive := true }
  else if s.appState = FINISHED then
    { s with brushingTimerActive := false }
  else
    { s with brushingTimerActive := false, brushingTime := 0 }

/-- React runs the `[appState]`-dependent effect only when `appState` has
changed since the previous commit: `old` is the state before the mutation. -/
def applyEffects (old : AppState) (s : Session) : Session :=
  if s.appState = old then s else timerEffect s

/-- One firing of the brushing interval callback (App.tsx lines 174-184):
`setBrushingTime(prev => ...)` checks `prev >= BRUSHING_REQUIRED_TIME`
FIRST; if so it sets `FINISHED`, sets the completion message, clears the
interval and keeps `prev`; otherwise it returns `prev + 1`. -/
def brushingTick (s : Session) : Session :=
  if s.brushingTime ≥ BRUSHING_REQUIRED_TIME then
    { s with appState := FINISHED
             statusMessage := "Great job! Here is your reward."
             brushingTimerActive := false }
  else
    { s with brushingTime := s.brushingTime + 1 }

/-- One full brushing-timer tick as observed at the next settled render:
the interval callback followed by the timer effect if the state changed. -/
def tickS (s : Session) : Session :=
  applyEffects s.appState (brushingTick s)

/-- `reset` (App.tsx lines 208-213) followed by the timer effect if the
state changed: `IDLE`, timer 0, status `"Ready to start"`, error cleared. -/
def resetSession (s : Session) : Session :=
  applyEffects s.appState
    { s with appState := IDLE
             brushingTime := 0
             statusMessage := "Ready to start"
             error := none }

/-- The `catch` branch of `startCamera` (App.tsx lines 62-66) followed by
the timer effect: sets the camera error message and `ERROR`. -/
def camFailSession (s : Session) : Session :=
  applyEffects s.appState
    { s with error := some "Could not access camera. Please ensure permissions are granted."
             appState := ERROR }

/-- The success path of `startCamera` (App.tsx lines 53-61) followed by the
timer effect: `IDLE` and error cleared (used by the Retry button). -/
def camOkSession (s : Session) : Session :=
  applyEffects s.appState
    { s with appState := IDLE, error := none }

/-- The DOM inputs `captureFrame` reads (App.tsx lines 82-91): whether the
video and canvas refs are populated, whether `getContext('2d')` succeeds,
and the data URL `toDataURL` would produce for the current frame. -/
structure FrameEnv where
  videoPresent : Bool
  canvasPresent : Bool
  ctx2dAvailable : Bool
  dataUrl : String
  deriving DecidableEq, Repr

/-- JavaScript `s.split(',')` on the character list of `s`, by structural
recursion (`acc` holds the characters of the current piece, reversed). -/
def splitCommaAux : List Char → List Char → List String
  | [], acc => [String.mk acc.reverse]
  | c :: cs, acc =>
    if c = ',' then String.mk acc.reverse :: splitCommaAux cs []
    else splitCommaAux cs (c :: acc)

/-- JavaScript `s.split(',')`. -/
def jsSplitComma (s : String) : List String :=
  splitCommaAux s.data []

/-- `captureFrame` (App.tsx lines 82-92): `null` when either ref is empty or
the 2D context is unavailable; otherwise
`canvas.toDataURL('image/jpeg', 0.7).split(',')[1]`, where indexing past
the end of the split yields `undefined` (modelled as `none`). -/
def captureFrame (env : FrameEnv) : Option String :=
  if ¬ env.videoPresent ∨ ¬ env.canvasPresent then none
  else if ¬ env.ctx2dAvailable then none
  else (jsSplitComma env.dataUrl)[1]?

/-- One execution configuration: the component state plus the outstanding
classification calls. Each outstanding call is recorded by the `appState`
value that was interpolated into its prompt (`Current App State: ...`,
App.tsx line 108) — the request-time context. -/
structure Config where
  session : Session
  pending : List AppState
  deriving DecidableEq, Repr

/-- The initial configuration: fresh component state, no outstanding call. -/
def initConfig : Config :=
  { session := initSession, pending := [] }

/-- The synchronous prefix of `analyzeFrame` (App.tsx lines 94-100 and the
dispatch at line 125), as run by the analysis interval: return at once if
the state is `FINISHED` or `ERROR`; return if `captureFrame` yields no
usable image (`!base64Image` is also true of the empty string); otherwise
set `isAnalyzing` and issue the classification call. No check of
`isAnalyzing` or of the outstanding calls guards the dispatch. -/
def pollStep (env : FrameEnv) (cfg : Config) : Config :=
  if cfg.session.appState = FINISHED ∨ cfg.session.appState = ERROR then cfg
  else
    match captureFrame env with
    | none => cfg
    | some img =>
      if img = "" then cfg
      else
        { session := { cfg.session with isAnalyzing := true }
          pending := cfg.session.appState :: cfg.pending }

/-- Settlement of outstanding call `i` with a parse-able response `raw`
(App.tsx lines 138-139 and the `finally` at line 144): the result is fed to
`handleDetectionResult` against the CURRENT session, `isAnalyzing` is
cleared, and the timer effect runs if the state changed. The request-time
context `pending[i]` is dropped without being consulted. -/
def settleOkStep (i : Nat) (raw : RawDetection) (cfg : Config) : Config :=
  let s1 := handleDetectionResult raw cfg.session
  { session := applyEffects cfg.session.appState { s1 with isAnalyzing := false }
    pending := cfg.pending.eraseIdx i }

/-- Settlement of outstanding call `i` with a transport error or a
`JSON.parse` failure (the `catch` at App.tsx lines 140-143 and the
`finally` at line 144): only `isAnalyzing` is cleared; no state, timer,
message or error change. -/
def settleErrStep (i : Nat) (cfg : Config) : Config :=
  { session := { cfg.session with isAnalyzing := false }
    pending := cfg.pending.eraseIdx i }

/-- One firing of the brushing interval at the configuration level. -/
def brushTickStep (cfg : Config) : Config :=
  { cfg with session := tickS cfg.session }

/-- `reset` at the configuration level: the outstanding calls are not
cancelled (nothing aborts the in-flight `generateContent` promises). -/
def resetStep (cfg : Config) : Config :=
  { cfg with session := resetSession cfg.session }

/-- Camera acquisition failure at the configuration level. -/
def camFailStep (cfg : Config) : Config :=
  { cfg with session := camFailSession cfg.session }

/-- Camera (re-)acquisition success at the configuration level. -/
def camOkStep (cfg : Config) : Config :=
  { cfg with session := camOkSession cfg.session }

/-- The events of one session. The analysis interval may fire at any time
(its internal guards make it a no-op in terminal states); an outstanding
call may settle at any time, in any order, with success or failure; the
brushing interval fires only while its handle is installed; the user may
reset; camera acquisition may fail or succeed. -/
inductive Step : Config → Config → Prop where
  | poll (env : FrameEnv) (cfg : Config) : Step cfg (pollStep env cfg)
  | settleOk (i : Nat) (raw : RawDetection) (cfg : Config)
      (h : i < cfg.pending.length) : Step cfg (settleOkStep i raw cfg)
  | settleErr (i : Nat) (cfg : Config)
      (h : i < cfg.pending.length) : Step cfg (settleErrStep i cfg)
  | brushTick (cfg : Config)
      (h : cfg.session.brushingTimerActive = true) : Step cfg (brushTickStep cfg)
  | doReset (cfg : Config) : Step cfg (resetStep cfg)
  | camFail (cfg : Config) : Step cfg (camFailStep cfg)
  | camOk (cfg : Config) : Step cfg (camOkStep cfg)

/-- The configurations reachable from the initial one. -/
inductive Reachable : Config → Prop where
  | init : Reachable initConfig
  | step {c c' : Config} : Reachable c → Step c c' → Reachable c'

/-! Concrete objects used by the counterexamples and witnesses below. -/

/-- A frame environment in which capture succeeds (both refs populated, 2D
context available, a well-formed data URL). -/
def liveFrameEnv : FrameEnv :=
  { videoPresent := true
    canvasPresent := true
    ctx2dAvailable := true
    dataUrl := "d,x" }

/-- The configuration after one analysis-interval firing from the start:
one outstanding call, requested under `IDLE`. -/
def oneOutstanding : Config :=
  pollStep liveFrameEnv initConfig

/-- The configuration after a second analysis-interval firing while the
first call has not settled: two outstanding calls, both under `IDLE`. -/
def twoOutstanding : Config :=
  pollStep liveFrameEnv oneOutstanding

/-- A confident toothpaste detection. -/
def toothpasteRaw : RawDetection :=
  { isApplyingToothpaste := some true
    isBrushInMouth := none
    isBrushing := none
    confidence := some (mkRat 9 10)
    reasoning := some "toothpaste on brush" }

/-- A confident brush-in-mouth detection. -/
def brushRaw : RawDetection :=
  { isApplyingToothpaste := none
    isBrushInMouth := some true
    isBrushing := none
    confidence := some (mkRat 9 10)
    reasoning := some "brush in mouth" }

/-- A parsed response whose `confidence` field is absent but whose
`isApplyingToothpaste` field is present and true. -/
def missingConfidenceRaw : RawDetection :=
  { isApplyingToothpaste := some true
    isBrushInMouth := none
    isBrushing := none
    confidence := none
    reasoning := none }

/-- `JSON.parse('\x7b\x7d')`: the object with every field absent, produced
when `response.text` is falsy. -/
def emptyRaw : RawDetection :=
  { isApplyingToothpaste := none
    isBrushInMouth := none
    isBrushing := none
    confidence := none
    reasoning := none }

/-- From `twoOutstanding`, the newer call settles first with a toothpaste
detection: the session advances to `APPLYING_TOOTHPASTE` while the older
call — requested under `IDLE` — is still outstanding and now stale. -/
def staleConfig : Config :=
  settleOkStep 1 toothpasteRaw twoOutstanding

/-- The session at the moment `BRUSHING` is entered: timer at 0, brushing
interval installed, the brushing-detected status message. -/
def brushingStart : Session :=
  { appState := BRUSHING
    isAnalyzing := false
    brushingTime := 0
    statusMessage := "Brushing detected! Keep going for 10 seconds."
    error := none
    brushingTimerActive := true }

/-- A brushing-phase configuration with one (stale) outstanding call. -/
def brushingConfig : Config :=
  { session := brushingStart, pending := [APPLYING_TOOTHPASTE] }

/-- A well-formed result below the confidence gate, all booleans set. -/
def lowConfDetection : DetectionResult :=
  { isApplyingToothpaste := true
    isBrushInMouth := true
    isBrushing := true
    confidence := (mkRat 1 10)
    reasoning := "barely visible" }

/-- A well-formed, confident toothpaste detection. -/
def confidentToothpaste : DetectionResult :=
  { isApplyingToothpaste := true
    isBrushInMouth := false
    isBrushing := false
    confidence := (mkRat 9 10)
    reasoning := "applying toothpaste" }

/-- A frame environment whose video ref is empty: capture yields nothing. -/
def deadFrameEnv : FrameEnv :=
  { videoPresent := false
    canvasPresent := true
    ctx2dAvailable := true
    dataUrl := "d,x" }

lemma reachable_oneOutstanding : Reachable oneOutstanding :=
  Reachable.step Reachable.init (Step.poll liveFrameEnv initConfig)

lemma reachable_twoOutstanding : Reachable twoOutstanding :=
  Reachable.step reachable_oneOutstanding (Step.poll liveFrameEnv oneOutstanding)

lemma reachable_staleConfig : Reachable staleConfig :=
  Reachable.step reachable_twoOutstanding
    (Step.settleOk 1 toothpasteRaw twoOutstanding (by decide))

/-! Helper lemmas. -/

/-- From `BRUSHING`, `handleDetectionResult` never changes the session:
neither transition condition mentions `BRUSHING`, and the `BRUSHING` branch
of the updater is an empty comment block. -/
lemma handleDetectionResult_brushing (raw : RawDetection) (s : Session)
    (h : s.appState = BRUSHING) : handleDetectionResult raw s = s := by
  unfold handleDetectionResult
  split_ifs with h1 h2 h3
  · rfl
  · rw [h] at h2
    exact absurd h2.1 (by decide)
  · rw [h] at h3
    exact absurd h3.1 (by decide)
  · rfl

/-- `handleDetectionResult` either leaves the session unchanged, or advances
`IDLE` to `APPLYING_TOOTHPASTE`, or advances `APPLYING_TOOTHPASTE` to
`BRUSHING`, in each case touching only `appState` and `statusMessage`. -/
lemma handleDetectionResult_cases (raw : RawDetection) (s : Session) :
    handleDetectionResult raw s = s ∨
    (s.appState = IDLE ∧ handleDetectionResult raw s =
      { s with appState := APPLYING_TOOTHPASTE
               statusMessage := "Toothpaste detected! Now put the brush in your mouth." }) ∨
    (s.appState = APPLYING_TOOTHPASTE ∧ handleDetectionResult raw s =
      { s with appState := BRUSHING
               statusMessage := "Brushing detected! Keep going for 10 seconds." }) := by
  unfold handleDetectionResult
  split_ifs with h1 h2 h3
  · exact Or.inl rfl
  · exact Or.inr (Or.inl ⟨h2.1, rfl⟩)
  · exact Or.inr (Or.inr ⟨h3.1, rfl⟩)
  · exact Or.inl rfl

/-- The session invariant: the brushing timer never exceeds the required
time, is frozen exactly at the required time in `FINISHED`, is zero in
every state other than `BRUSHING` and `FINISHED`, and the brushing interval
handle is installed only in `BRUSHING`. -/
def SInv (s : Session) : Prop :=
  s.brushingTime ≤ BRUSHING_REQUIRED_TIME ∧
  (s.appState = FINISHED → s.brushingTime = BRUSHING_REQUIRED_TIME) ∧
  (s.appState ≠ BRUSHING → s.appState ≠ FINISHED → s.brushingTime = 0) ∧
  (s.brushingTimerActive = true → s.appState = BRUSHING)

lemma sInv_init : SInv initSession := by
  refine ⟨by decide, by decide, fun _ _ => rfl, by decide⟩

lemma sInv_settleOk (raw : RawDetection) (s : Session) (h : SInv s) :
    SInv (applyEffects s.appState { handleDetectionResult raw s with isAnalyzing := false }) := by
  obtain ⟨h1, h2, h3, h4⟩ := h
  rcases handleDetectionResult_cases raw s with hc | ⟨hst, hc⟩ | ⟨hst, hc⟩ <;>
    rw [hc] <;> unfold applyEffects timerEffect SInv <;>
    cases hs2 : s.appState <;> simp_all [BRUSHING_REQUIRED_TIME]

lemma sInv_settleErr (s : Session) (h : SInv s) :
    SInv { s with isAnalyzing := false } := h

lemma sInv_tick (s : Session) (h : SInv s)
    (hflag : s.brushingTimerActive = true) : SInv (tickS s) := by
  obtain ⟨h1, h2, h3, h4⟩ := h
  have hb : s.appState = BRUSHING := h4 hflag
  unfold tickS brushingTick applyEffects timerEffect SInv
  rw [hb]
  split_ifs <;> simp_all [BRUSHING_REQUIRED_TIME] <;> omega

lemma sInv_reset (s : Session) (h : SInv s) : SInv (resetSession s) := by
  obtain ⟨h1, h2, h3, h4⟩ := h
  unfold resetSession applyEffects timerEffect SInv
  cases hs2 : s.appState <;> simp_all [BRUSHING_REQUIRED_TIME]

lemma sInv_camFail (s : Session) (h : SInv s) : SInv (camFailSession s) := by
  obtain ⟨h1, h2, h3, h4⟩ := h
  unfold camFailSession applyEffects timerEffect SInv
  cases hs2 : s.appState <;> simp_all [BRUSHING_REQUIRED_TIME]

lemma sInv_camOk (s : Session) (h : SInv s) : SInv (camOkSession s) := by
  obtain ⟨h1, h2, h3, h4⟩ := h
  unfold camOkSession applyEffects timerEffect SInv
  cases hs2 : s.appState <;> simp_all [BRUSHING_REQUIRED_TIME]

lemma sInv_poll (env : FrameEnv) (cfg : Config) (h : SInv cfg.session) :
    SInv (pollStep env cfg).session := by
  unfold pollStep
  split_ifs
  · exact h
  · cases captureFrame env with
    | none => exact h
    | some img =>
      by_cases he : img = "" <;> simp only [he, if_pos, if_neg, ite_true, ite_false] <;> exact h

/-- Every reachable configuration satisfies the session invariant. -/
lemma reachable_sInv {c : Config} (h : Reachable c) : SInv c.session := by
  induction h with
  | init => exact sInv_init
  | @step a b hr hs ih =>
    cases hs with
    | poll env => exact sInv_poll env a ih
    | settleOk i raw hi => exact sInv_settleOk raw a.session ih
    | settleErr i hi => exact sInv_settleErr a.session ih
    | brushTick c0 hf => exact sInv_tick a.session ih hf
    | doReset => exact sInv_reset a.session ih
    | camFail => exact sInv_camFail a.session ih
    | camOk => exact sInv_camOk a.session ih

/-! Claim theorems. -/

/-- C1 counterexample: starting from `BRUSHING` with the timer at 0, ten
firings of the brushing interval drive `brushingTime` to 10 but leave the
state `BRUSHING` — the transition to `FINISHED` has NOT happened on the
10th tick, because the callback checks `prev >= BRUSHING_REQUIRED_TIME`
before incrementing. -/
theorem c1_counterexample :
    (tickS^[BRUSHING_REQUIRED_TIME] brushingStart).brushingTime = BRUSHING_REQUIRED_TIME ∧
    (tickS^[BRUSHING_REQUIRED_TIME] brushingStart).appState = BRUSHING ∧
    BRUSHING ≠ FINISHED :=
  ⟨by decide, by decide, by decide⟩

/-- C1 (amended): from `BRUSHING` with the timer at 0, the first
`requiredSeconds` (10) ticks only count `brushingTime` from 0 up to 10,
with the state still `BRUSHING` throughout; the transition to `FINISHED`
happens on the 11th tick, which also sets the completion status message,
stops the countdown interval, and freezes the timer at 10. -/
theorem c1_amended (k : Nat) (hk : k ≤ BRUSHING_REQUIRED_TIME) :
    (tickS^[k] brushingStart).appState = BRUSHING ∧
    (tickS^[k] brushingStart).brushingTime = k ∧
    (tickS^[BRUSHING_REQUIRED_TIME + 1] brushingStart).appState = FINISHED ∧
    (tickS^[BRUSHING_REQUIRED_TIME + 1] brushingStart).brushingTime = BRUSHING_REQUIRED_TIME ∧
    (tickS^[BRUSHING_REQUIRED_TIME + 1] brushingStart).statusMessage =
      "Great job! Here is your reward." ∧
    (tickS^[BRUSHING_REQUIRED_TIME + 1] brushingStart).brushingTimerActive = false := by
  have hb : BRUSHING_REQUIRED_TIME = 10 := rfl
  rw [hb] at hk
  interval_cases k <;>
    exact ⟨by decide, by decide, by decide, by decide, by decide, by decide⟩

/-- C1 witness: the amended statement instantiated at the 10th tick. -/
theorem c1_witness :
    10 ≤ BRUSHING_REQUIRED_TIME ∧
    ((tickS^[10] brushingStart).appState = BRUSHING ∧
     (tickS^[10] brushingStart).brushingTime = 10 ∧
     (tickS^[BRUSHING_REQUIRED_TIME + 1] brushingStart).appState = FINISHED ∧
     (tickS^[BRUSHING_REQUIRED_TIME + 1] brushingStart).brushingTime = BRUSHING_REQUIRED_TIME ∧
     (tickS^[BRUSHING_REQUIRED_TIME + 1] brushingStart).statusMessage =
       "Great job! Here is your reward." ∧
     (tickS^[BRUSHING_REQUIRED_TIME + 1] brushingStart).brushingTimerActive = false) :=
  ⟨by decide, c1_amended 10 (by decide)⟩

/-- C2 counterexample: the configuration `twoOutstanding` is reachable (the
analysis interval fires a second time, 3 seconds after the first, while the
first classification call has not settled) and carries two outstanding
classification calls: nothing gates dispatch on the in-flight call. -/
theorem c2_counterexample :
    ¬ (∀ cfg : Config, Reachable cfg → cfg.pending.length ≤ 1) := by
  intro hall
  exact absurd (hall twoOutstanding reachable_twoOutstanding) (by decide)

/-- C2 (amended): the polling loop does NOT gate dispatch on an
outstanding-call flag: whenever the analysis interval fires with the state
not terminal and a usable frame captured, a new classification call is
issued — even while previous calls are still outstanding (`isAnalyzing` is
set for display but never consulted). -/
theorem c2_amended (cfg : Config) (env : FrameEnv) (img : String)
    (h1 : cfg.session.appState ≠ FINISHED) (h2 : cfg.session.appState ≠ ERROR)
    (h3 : captureFrame env = some img) (h4 : img ≠ "")
    (_h5 : cfg.pending ≠ []) :
    (pollStep env cfg).pending = cfg.session.appState :: cfg.pending ∧
    (pollStep env cfg).session.isAnalyzing = true := by
  unfold pollStep
  rw [if_neg (by simp [h1, h2]), h3]
  simp [h4]

/-- C2 witness: the amended statement at the reachable one-outstanding
configuration — the second dispatch proceeds while the first is in flight. -/
theorem c2_witness :
    oneOutstanding.session.appState ≠ FINISHED ∧
    oneOutstanding.session.appState ≠ ERROR ∧
    captureFrame liveFrameEnv = some "x" ∧
    "x" ≠ "" ∧
    oneOutstanding.pending ≠ [] ∧
    ((pollStep liveFrameEnv oneOutstanding).pending =
       oneOutstanding.session.appState :: oneOutstanding.pending ∧
     (pollStep liveFrameEnv oneOutstanding).session.isAnalyzing = true) :=
  ⟨by decide, by decide, by decide, by decide, by decide,
   c2_amended oneOutstanding liveFrameEnv "x" (by decide) (by decide) (by decide)
     (by decide) (by decide)⟩

/-- C3 counterexample: in the reachable configuration `staleConfig` the
remaining outstanding call was requested under `IDLE` while the session has
since advanced to `APPLYING_TOOTHPASTE`; when that stale call settles with
a confident brush-in-mouth result it is NOT discarded — it transitions the
session to `BRUSHING` and changes the status message. -/
theorem c3_counterexample :
    ¬ (∀ cfg : Config, Reachable cfg → ∀ i : Nat, ∀ ctx : AppState,
        ∀ raw : RawDetection,
        cfg.pending[i]? = some ctx → ctx ≠ cfg.session.appState →
        (settleOkStep i raw cfg).session.appState = cfg.session.appState ∧
        (settleOkStep i raw cfg).session.statusMessage =
          cfg.session.statusMessage) := by
  intro hall
  have h := hall staleConfig reachable_staleConfig 0 IDLE brushRaw
    (by decide) (by decide)
  exact absurd h.1 (by decide)

/-- C3 (amended): a late classification result is not discarded; it is
interpreted against the session state at SETTLEMENT time — the functional
updater reads the current state and the request-time context is never
consulted (the settlement outcome is independent of it). In the spec's own
scenario, a result settling after the session has advanced to `BRUSHING`
causes no transition and no status-message change, but only because
`BRUSHING` admits no classifier transition. -/
theorem c3_amended (cfg cfg2 : Config) (i j : Nat) (raw : RawDetection)
    (hs : cfg.session = cfg2.session)
    (hb : cfg.session.appState = BRUSHING) :
    (settleOkStep i raw cfg).session = (settleOkStep j raw cfg2).session ∧
    (settleOkStep i raw cfg).session.appState = BRUSHING ∧
    (settleOkStep i raw cfg).session.statusMessage = cfg.session.statusMessage := by
  have hb2 : cfg2.session.appState = BRUSHING := by rw [← hs]; exact hb
  have heq : (settleOkStep i raw cfg).session =
      { cfg.session with isAnalyzing := false } := by
    unfold settleOkStep applyEffects
    rw [handleDetectionResult_brushing raw cfg.session hb]
    simp
  have heq2 : (settleOkStep j raw cfg2).session =
      { cfg2.session with isAnalyzing := false } := by
    unfold settleOkStep applyEffects
    rw [handleDetectionResult_brushing raw cfg2.session hb2]
    simp
  refine ⟨by rw [heq, heq2, hs], by rw [heq]; exact hb, by rw [heq]⟩

/-- C3 witness: the amended statement at a brushing-phase configuration
with a stale outstanding call settling with a confident detection. -/
theorem c3_witness :
    brushingConfig.session = brushingConfig.session ∧
    brushingConfig.session.appState = BRUSHING ∧
    ((settleOkStep 0 brushRaw brushingConfig).session =
       (settleOkStep 0 brushRaw brushingConfig).session ∧
     (settleOkStep 0 brushRaw brushingConfig).session.appState = BRUSHING ∧
     (settleOkStep 0 brushRaw brushingConfig).session.statusMessage =
       brushingConfig.session.statusMessage) :=
  ⟨rfl, rfl, c3_amended brushingConfig brushingConfig 0 0 brushRaw rfl rfl⟩

/-- C4: every well-formed DetectionResult with confidence < 0.4 is
discarded by `handleDetectionResult`: the session is returned unchanged —
no state transition, no status-message change — regardless of the boolean
fields and of the current state. -/
theorem c4_low_confidence_discarded (r : DetectionResult) (s : Session)
    (h : r.confidence < (mkRat 2 5)) :
    handleDetectionResult r.toRaw s = s := by
  have hg : jsLt (some r.confidence) (mkRat 2 5) = true := by
    simp [jsLt, h]
  unfold handleDetectionResult DetectionResult.toRaw
  simp [hg]

/-- C4 witness: a confidence-0.1 result with every boolean set leaves the
initial session untouched. -/
theorem c4_witness :
    lowConfDetection.confidence < (mkRat 2 5) ∧
    handleDetectionResult lowConfDetection.toRaw initSession = initSession :=
  ⟨by decide,
   c4_low_confidence_discarded lowConfDetection initSession (by decide)⟩

/-- C5: for a well-formed result at or above the confidence gate: from
`IDLE` a transition occurs exactly when `isApplyingToothpaste` is true, and
it is always to `APPLYING_TOOTHPASTE` with the toothpaste-detected message;
from `APPLYING_TOOTHPASTE` a transition occurs exactly when `isBrushInMouth`
is true, and it is always to `BRUSHING` with the brushing-detected message —
in particular `isApplyingToothpaste` alone in `APPLYING_TOOTHPASTE` causes
no change at all. -/
theorem c5_forward_transitions (r : DetectionResult) (s : Session)
    (h : ¬ r.confidence < (mkRat 2 5)) :
    (s.appState = IDLE →
      (r.isApplyingToothpaste = true →
        handleDetectionResult r.toRaw s =
          { s with appState := APPLYING_TOOTHPASTE
                   statusMessage := "Toothpaste detected! Now put the brush in your mouth." }) ∧
      (r.isApplyingToothpaste = false → handleDetectionResult r.toRaw s = s)) ∧
    (s.appState = APPLYING_TOOTHPASTE →
      (r.isBrushInMouth = true →
        handleDetectionResult r.toRaw s =
          { s with appState := BRUSHING
                   statusMessage := "Brushing detected! Keep going for 10 seconds." }) ∧
      (r.isBrushInMouth = false → handleDetectionResult r.toRaw s = s)) := by
  have hg : jsLt (some r.confidence) (mkRat 2 5) = false := by
    simp [jsLt, h]
  refine ⟨fun hst => ⟨fun hfield => ?_, fun hfield => ?_⟩,
          fun hst => ⟨fun hfield => ?_, fun hfield => ?_⟩⟩ <;>
    unfold handleDetectionResult DetectionResult.toRaw <;>
    simp [truthy, hg, hst, hfield]

/-- C5 witness: a confident toothpaste detection advances the initial
(idle) session to `APPLYING_TOOTHPASTE`. -/
theorem c5_witness :
    ¬ confidentToothpaste.confidence < (mkRat 2 5) ∧
    ((initSession.appState = IDLE →
      (confidentToothpaste.isApplyingToothpaste = true →
        handleDetectionResult confidentToothpaste.toRaw initSession =
          { initSession with
              appState := APPLYING_TOOTHPASTE
              statusMessage := "Toothpaste detected! Now put the brush in your mouth." }) ∧
      (confidentToothpaste.isApplyingToothpaste = false →
        handleDetectionResult confidentToothpaste.toRaw initSession = initSession)) ∧
    (initSession.appState = APPLYING_TOOTHPASTE →
      (confidentToothpaste.isBrushInMouth = true →
        handleDetectionResult confidentToothpaste.toRaw initSession =
          { initSession with
              appState := BRUSHING
              statusMessage := "Brushing detected! Keep going for 10 seconds." }) ∧
      (confidentToothpaste.isBrushInMouth = false →
        handleDetectionResult confidentToothpaste.toRaw initSession = initSession))) :=
  ⟨by decide,
   c5_forward_transitions confidentToothpaste initSession (by decide)⟩

/-- C6: once in `BRUSHING`, no classification result — any field
combination, present or absent, any confidence — changes the session at
all; the brushing-interval callback is the only exit, and it moves the
state to `FINISHED` exactly when the timer has reached
`BRUSHING_REQUIRED_TIME`, otherwise the state stays `BRUSHING`. -/
theorem c6_brushing_sticky (s : Session) (raw : RawDetection)
    (h : s.appState = BRUSHING) :
    handleDetectionResult raw s = s ∧
    (brushingTick s).appState =
      (if BRUSHING_REQUIRED_TIME ≤ s.brushingTime then FINISHED else BRUSHING) := by
  refine ⟨handleDetectionResult_brushing raw s h, ?_⟩
  unfold brushingTick
  split_ifs with ht
  · rfl
  · simpa using h

/-- C6 witness: at the start of the brushing phase neither a confident
brush detection nor the first tick leaves `BRUSHING`. -/
theorem c6_witness :
    brushingStart.appState = BRUSHING ∧
    (handleDetectionResult brushRaw brushingStart = brushingStart ∧
     (brushingTick brushingStart).appState =
       (if BRUSHING_REQUIRED_TIME ≤ brushingStart.brushingTime then FINISHED
        else BRUSHING)) :=
  ⟨rfl, c6_brushing_sticky brushingStart brushRaw rfl⟩

/-- C7: in every reachable configuration,
0 ≤ `brushingTime` ≤ `BRUSHING_REQUIRED_TIME`; the timer is zero in every
state other than `BRUSHING` and `FINISHED` (entering such a state resets
it), and in `FINISHED` it is frozen exactly at `BRUSHING_REQUIRED_TIME`. -/
theorem c7_elapsed_invariant (cfg : Config) (h : Reachable cfg) :
    0 ≤ cfg.session.brushingTime ∧
    cfg.session.brushingTime ≤ BRUSHING_REQUIRED_TIME ∧
    (cfg.session.appState ≠ BRUSHING → cfg.session.appState ≠ FINISHED →
      cfg.session.brushingTime = 0) ∧
    (cfg.session.appState = FINISHED →
      cfg.session.brushingTime = BRUSHING_REQUIRED_TIME) := by
  obtain ⟨h1, h2, h3, h4⟩ := reachable_sInv h
  exact ⟨Nat.zero_le _, h1, h3, h2⟩

/-- C7 witness: the invariant at the initial configuration. -/
theorem c7_witness :
    Reachable initConfig ∧
    (0 ≤ initConfig.session.brushingTime ∧
     initConfig.session.brushingTime ≤ BRUSHING_REQUIRED_TIME ∧
     (initConfig.session.appState ≠ BRUSHING →
       initConfig.session.appState ≠ FINISHED →
       initConfig.session.brushingTime = 0) ∧
     (initConfig.session.appState = FINISHED →
       initConfig.session.brushingTime = BRUSHING_REQUIRED_TIME)) :=
  ⟨Reachable.init, c7_elapsed_invariant initConfig Reachable.init⟩

/-- C8: `reset` from any state returns the session to `IDLE` with the
timer at 0 and the error cleared. -/
theorem c8_reset_returns_idle (s : Session) :
    (resetSession s).appState = IDLE ∧
    (resetSession s).brushingTime = 0 ∧
    (resetSession s).error = none := by
  unfold resetSession applyEffects timerEffect
  cases hs : s.appState <;> simp

/-- C9 counterexample: a parse-able response missing its `confidence` field
but carrying `isApplyingToothpaste: true` is NOT treated as a
classification failure: `undefined < 0.4` is false, so it passes the gate
and transitions the idle session to `APPLYING_TOOTHPASTE`. -/
theorem c9_counterexample :
    (handleDetectionResult missingConfidenceRaw initSession).appState =
      APPLYING_TOOTHPASTE ∧
    handleDetectionResult missingConfidenceRaw initSession ≠ initSession :=
  ⟨by decide, by decide⟩

/-- C9 (amended): transport errors and malformed JSON are absorbed — the
settlement only clears the analyzing flag, leaving state, timer, status
message and error untouched (in particular the state becomes `ERROR` only
if it already was). An empty response body is parsed as the empty object
and reaches the handler, where it causes no change because every absent
boolean is falsy. A response with some fields present, however, is handled
as a detection, not as a failure (see the counterexample). -/
theorem c9_amended (cfg : Config) (i : Nat) (s : Session) :
    (settleErrStep i cfg).session = { cfg.session with isAnalyzing := false } ∧
    ((settleErrStep i cfg).session.appState = ERROR →
      cfg.session.appState = ERROR) ∧
    (settleErrStep i cfg).session.error = cfg.session.error ∧
    handleDetectionResult emptyRaw s = s := by
  refine ⟨rfl, fun hx => hx, rfl, ?_⟩
  unfold handleDetectionResult emptyRaw
  simp [jsLt, truthy]

/-- C10: when the frame source yields no image — video or canvas ref empty,
or no 2D context — `captureFrame` returns `null` and the analysis tick is a
no-op: no classification call is dispatched, the analyzing flag is not
raised, and nothing in the configuration changes. -/
theorem c10_no_frame_no_effect (env : FrameEnv) (cfg : Config)
    (h : env.videoPresent = false ∨ env.canvasPresent = false ∨
         env.ctx2dAvailable = false) :
    captureFrame env = none ∧ pollStep env cfg = cfg := by
  have hc : captureFrame env = none := by
    unfold captureFrame
    rcases h with h | h | h <;> simp [h]
  refine ⟨hc, ?_⟩
  unfold pollStep
  rw [hc]
  split_ifs <;> rfl

/-- C10 witness: with the video ref empty, the tick changes nothing. -/
theorem c10_witness :
    (deadFrameEnv.videoPresent = false ∨ deadFrameEnv.canvasPresent = false ∨
      deadFrameEnv.ctx2dAvailable = false) ∧
    (captureFrame deadFrameEnv = none ∧
     pollStep deadFrameEnv initConfig = initConfig) :=
  ⟨Or.inl rfl, c10_no_frame_no_effect deadFrameEnv initConfig (Or.inl rfl)⟩

end WakeTheFup

